import Mathlib

/-!
Shallow embedding of `pytest_rpc/helpers.py`.

Modelling conventions:
* A resource record (a Python dict produced by `openstack ... list -f json`)
  is an association list from attribute name to string value; the claims under
  study only involve string-valued attributes.  An inventory snapshot is the
  list of records returned by one listing.
* Python exceptions are modelled with `Except PyErr`; the distinct exception
  classes raised by the source (`AssertionError`, `RuntimeError`, `KeyError`,
  `ValueError`, `AttributeError`, `TypeError`) are constructors of `PyErr`.
* The command runner (`testinfra` host) is an injected capability
  `String → CommandResult`; `sleep` is modelled by counting the number of
  calls where a function's sleeps are under study.
* A Python list comprehension such as `[x for x in rs if x['ID'] == rid]`
  raises `KeyError` as soon as any element lacks the key, aborting the whole
  comprehension; the `except` handlers around these comprehensions therefore
  yield an all-or-nothing behaviour which the embedding reproduces.
* `json.loads` is an external collaborator and is passed in as an oracle
  `String → Option Json` (`none` models `ValueError`); `uuid.UUID` is modelled
  by `uuidParse` below.
-/

namespace PytestRpc

/-- Python exception classes appearing in `helpers.py`. -/
inductive PyErr : Type where
  | assertionError (msg : String)
  | runtimeError (msg : String)
  | attributeError
  | keyError
  | valueError
  | typeError
  deriving DecidableEq, Repr

/-- Decidable equality of `Except` results, for evaluating the embedding at
concrete inputs. -/
instance {ε α : Type} [DecidableEq ε] [DecidableEq α] :
    DecidableEq (Except ε α) := fun x y =>
  match x, y with
  | .ok a, .ok b =>
    if h : a = b then .isTrue (by rw [h]) else
      .isFalse (fun hq => h (Except.ok.inj hq))
  | .error a, .error b =>
    if h : a = b then .isTrue (by rw [h]) else
      .isFalse (fun hq => h (Except.error.inj hq))
  | .ok _, .error _ => .isFalse (fun hq => Except.noConfusion hq)
  | .error _, .ok _ => .isFalse (fun hq => Except.noConfusion hq)

/-- Result of one command execution (`testinfra.CommandResult`): exit code and
standard output (stderr is never inspected by the functions under study). -/
structure CommandResult : Type where
  rc : Int
  stdout : String
  deriving DecidableEq, Repr

/-- One resource record: a JSON object with string attribute values,
as an association list (Python dict, first occurrence of a key wins). -/
abbrev Record : Type := List (String × String)

/-- One inventory snapshot: the parsed output of one `openstack <type> list`. -/
abbrev Snapshot : Type := List Record

/-- `r[k]` for a Python dict, as an `Option` (`none` models `KeyError`). -/
def pyGet (r : Record) (k : String) : Option String :=
  match r.find? (fun kv => kv.fst == k) with
  | some kv => some kv.snd
  | none => none

/-- `k in r` for a Python dict. -/
def pyHasKey (r : Record) (k : String) : Bool :=
  (pyGet r k).isSome

/-- Python's `s.lower()` (characterwise; the values under study are ASCII). -/
def pyLower (s : String) : String :=
  String.mk (s.data.map Char.toLower)

/-- Split a character list at every character satisfying `p`, keeping empty
fields (the semantics of Python's `s.split(sep)` for a one-character `sep`
when `p` tests for that character). -/
def splitPred (p : Char → Bool) : List Char → List (List Char)
  | [] => [[]]
  | x :: xs =>
    if p x then
      [] :: splitPred p xs
    else
      match splitPred p xs with
      | [] => [[x]]
      | y :: ys => (x :: y) :: ys

/-- Python's `s.split(c)` for a one-character separator. -/
def pySplit (s : String) (c : Char) : List String :=
  (splitPred (fun x => x = c) s.data).map String.mk

/-- Python's whitespace `s.split()`: split on whitespace runs, no empty
fields. -/
def pySplitWs (s : String) : List String :=
  ((splitPred (fun c => c.isWhitespace) s.data).map String.mk).filter
    (fun x => x ≠ "")

/-- Python's `s.strip()`: drop leading and trailing whitespace. -/
def pyStrip (s : String) : String :=
  String.mk
    (((s.data.dropWhile Char.isWhitespace).reverse.dropWhile
      Char.isWhitespace).reverse)

/-- Contiguous-sublist test: does `pat` occur somewhere in the list? -/
def containsSub (pat : List Char) : List Char → Bool
  | [] => pat.isEmpty
  | c :: cs => pat.isPrefixOf (c :: cs) || containsSub pat cs

/-- Python's `pat in s` substring test. -/
def strContains (s pat : String) : Bool :=
  containsSub pat.data s.data

/-- Replacement of every non-overlapping occurrence of `pat` (scanning left
to right), with enough fuel to traverse the input once; each step consumes at
least one character. -/
def replaceFuel (pat rep : List Char) : Nat → List Char → List Char
  | 0, s => s
  | _, [] => []
  | fuel + 1, c :: cs =>
    if pat.isPrefixOf (c :: cs) then
      rep ++ replaceFuel pat rep fuel ((c :: cs).drop pat.length)
    else
      c :: replaceFuel pat rep fuel cs

/-- Python's `s.replace(pat, rep)` for a nonempty `pat`. -/
def pyReplace (s pat rep : String) : String :=
  String.mk (replaceFuel pat.data rep.data s.data.length s.data)

/-- Numeric value of a nonempty all-digit character list. -/
def natOfDigits (cs : List Char) : Nat :=
  cs.foldl (fun a c => a * 10 + (c.toNat - 48)) 0

/-- A minimal JSON value universe for `json.loads` results. -/
inductive Json : Type where
  | null
  | bool (b : Bool)
  | num (q : ℚ)
  | str (s : String)
  | arr (xs : List Json)
  | obj (kvs : List (String × Json))

/-- Key lookup in a parsed JSON object (`result['id']`, `key in result.keys()`). -/
def jsonGet (kvs : List (String × Json)) (k : String) : Option Json :=
  match kvs.find? (fun kv => kv.fst == k) with
  | some kv => some kv.snd
  | none => none

/-- `uuid.UUID(s)`: strip `urn:`/`uuid:` markers, surrounding braces and
hyphens, then require exactly 32 hex digits.  The UUID object is modelled by
its 32-digit lowercase hex string.  `none` models `ValueError`. -/
def uuidParse (s : String) : Option String :=
  let brace := Char.ofNat 123
  let braceClose := Char.ofNat 125
  let t := pyReplace (pyReplace s "urn:" "") "uuid:" ""
  let t := (t.data.dropWhile (fun c => c = brace || c = braceClose)).reverse
  let t := (t.dropWhile (fun c => c = brace || c = braceClose)).reverse
  let h := pyReplace (String.mk t) "-" ""
  if h.data.length = 32 && h.data.all (fun c =>
      c.isDigit || ("abcdefABCDEF".data.contains c)) then
    some (pyLower h)
  else
    none

/-- Message raised by `get_resource_by_id` when no record matched. -/
def notFoundMsg (resource_type resource_id : String) : String :=
  "Resource type \x27" ++ resource_type ++ "\x27 with ID \x27" ++
    resource_id ++ "\x27 was not found!"

/-- Message raised by `get_resource_by_id` on more than one match (the source
format string has a single placeholder, which receives the resource type; the
second argument to `format` is dropped). -/
def multipleMsg (resource_type : String) : String :=
  "Multiple resources type ID \x27" ++ resource_type ++ "\x27 were found!"

/-- `get_resource_by_id`, below the inventory fetch: the snapshot returned by
`get_resources_by_type` is taken as an argument.  The comprehension
`[x for x in resources if x['ID'] == resource_id]` is all-or-nothing: if any
record lacks `'ID'` a `KeyError` aborts it and the handler sets `matched = []`. -/
def get_resource_by_id (resources : Snapshot) (resource_type resource_id : String) :
    Except PyErr Record :=
  let matched :=
    if resources.all (fun x => pyHasKey x "ID") then
      resources.filter (fun x => pyGet x "ID" == some resource_id)
    else
      []
  match matched with
  | [] => .error (.runtimeError (notFoundMsg resource_type resource_id))
  | [r] => .ok r
  | _ :: _ :: _ => .error (.runtimeError (multipleMsg resource_type))

/-- `assert_resource_exists_by_id`, below the inventory fetch: one single call
to `get_resource_by_id`; a `RuntimeError` is re-raised as `AssertionError`
with the same message. -/
def assert_resource_exists_by_id (resources : Snapshot)
    (resource_type resource_id : String) : Except PyErr Unit :=
  match get_resource_by_id resources resource_type resource_id with
  | .ok _ => .ok ()
  | .error (.runtimeError m) => .error (.assertionError m)
  | .error e => .error e

/-- `get_resources_by_name`, below the inventory fetch: filter on `'Name'`;
if that comprehension raises (some record lacks `'Name'`), retry on
`'Display Name'`; if that also raises, the result is the empty list.
The trailing `if not matched: matched = []` of the source is a no-op. -/
def get_resources_by_name (resources : Snapshot)
    (_resource_type resource_name : String) : List Record :=
  let matched :=
    if resources.all (fun x => pyHasKey x "Name") then
      resources.filter (fun x => pyGet x "Name" == some resource_name)
    else if resources.all (fun x => pyHasKey x "Display Name") then
      resources.filter (fun x => pyGet x "Display Name" == some resource_name)
    else
      []
  matched

/-- A Python 2-tuple, used to model the expression
`(get_resources_by_name(...), assert_msg)` asserted by
`assert_resource_exists_by_name`. -/
structure PyTuple2 (α β : Type) : Type where
  fst : α
  snd : β

/-- Python truthiness of a tuple: a tuple is truthy iff it is nonempty;
a 2-tuple always is. -/
def PyTuple2.toBool {α β : Type} (_ : PyTuple2 α β) : Bool :=
  true

/-- `assert_resource_exists_by_name`, below the inventory fetch: the source
asserts the two-element tuple `(result, message)` itself — not the result with
the message attached — so the assert condition is always truthy and the
function returns normally whatever the snapshot contains. -/
def assert_resource_exists_by_name (resources : Snapshot)
    (resource_type resource_name : String) : Except PyErr Unit :=
  let assert_msg := "Resource type \x27" ++ resource_type ++
    "\x27 with name \x27" ++ resource_name ++ "\x27 was not found!"
  let asserted : PyTuple2 (List Record) String :=
    ⟨get_resources_by_name resources resource_type resource_name, assert_msg⟩
  if asserted.toBool then .ok () else .error (.assertionError "")

/-- Message raised by `get_id_by_name` when the name lookup fails. -/
def idByNameMsg (resource_type resource_name : String) : String :=
  "Resource type \x27" ++ resource_type ++ "\x27 with given name \x27" ++
    resource_name ++ "\x27 was not found!"

/-- `get_id_by_name`, below the inventory fetch: first name match wins; a
missing `'ID'` key on that record raises the same assertion as no match. -/
def get_id_by_name (resources : Snapshot)
    (resource_type resource_name : String) : Except PyErr String :=
  let found := get_resources_by_name resources resource_type resource_name
  match found with
  | [] => .error (.assertionError (idByNameMsg resource_type resource_name))
  | r :: _ =>
    match pyGet r "ID" with
    | some v =>
      match uuidParse v with
      | some u => .ok u
      | none => .error .valueError
    | none => .error (.assertionError (idByNameMsg resource_type resource_name))

/-- Message of `assert_resource_attribute_value` for a missing attribute (the
source's adjacent string literals juxtapose `'...'` and `with` without a
space). -/
def attrMissingMsg (attribute_name resource_type resource_id : String) : String :=
  "Attribute \x27" ++ attribute_name ++ "\x27 for resource type \x27" ++
    resource_type ++ "\x27with ID \x27" ++ resource_id ++ "\x27 does not exist!"

/-- Message of `assert_resource_attribute_value` on budget exhaustion (the
source's adjacent string literals juxtapose `!` and `Expected:` without a
space). -/
def mismatchMsg (resource_type resource_id expected actual : String) : String :=
  "Actual attribute value does not match expected for resource type \x27" ++
    resource_type ++ "\x27 with ID \x27" ++ resource_id ++
    "\x27!Expected: \x27" ++ expected ++ "\x27 Actual: \x27" ++ actual ++ "\x27"

/-- Python's default for the `case_insensitive` parameter of
`assert_resource_attribute_value`. -/
def defaultCaseInsensitive : Bool :=
  true

/-- Python's default for the `retries` parameter of
`assert_resource_attribute_value` and `_delete_it`. -/
def defaultRetries : Nat :=
  10

/-- Loop body of `assert_resource_attribute_value`: `remaining` attempts are
left, attempt `i` fetches the snapshot `fetch i`; `met` is `expectation_met`,
`res` the last bound `resource`, `sleeps` the number of `sleep` calls so far.
A matching attempt (exact, or lowercased actual with `case_insensitive`) sets
`expectation_met` and — the source has no `break` — still sleeps and keeps
looping; only a mismatching attempt skips the sleep via `continue`. -/
def attrLoop (fetch : Nat → Snapshot)
    (resource_type resource_id attribute_name expected_value : String)
    (case_insensitive : Bool) :
    Nat → Nat → Bool → Record → Nat → Except PyErr (Bool × Record × Nat)
  | 0, _, met, res, sleeps => .ok (met, res, sleeps)
  | remaining + 1, i, met, _, sleeps =>
    match get_resource_by_id (fetch i) resource_type resource_id with
    | .error (.runtimeError m) => .error (.assertionError m)
    | .error e => .error e
    | .ok resource =>
      match pyGet resource attribute_name with
      | none => .error (.assertionError
          (attrMissingMsg attribute_name resource_type resource_id))
      | some v =>
        if v == expected_value then
          attrLoop fetch resource_type resource_id attribute_name
            expected_value case_insensitive remaining (i + 1) true resource
            (sleeps + 1)
        else if pyLower v == expected_value && case_insensitive then
          attrLoop fetch resource_type resource_id attribute_name
            expected_value case_insensitive remaining (i + 1) true resource
            (sleeps + 1)
        else
          attrLoop fetch resource_type resource_id attribute_name
            expected_value case_insensitive remaining (i + 1) met resource
            sleeps

/-- `assert_resource_attribute_value`, below the inventory fetch: attempt `i`
reads the snapshot `fetch i`.  The `.ok` payload is the number of `sleep`
calls performed.  After the loop, if the expectation was never met, the
failure message interpolates `resource[attribute_name]` of the last fetched
record (a `KeyError` on the initial empty dict when `retries = 0`). -/
def assert_resource_attribute_value (fetch : Nat → Snapshot)
    (resource_type resource_id attribute_name expected_value : String)
    (retries : Nat) (case_insensitive : Bool) : Except PyErr Nat :=
  match attrLoop fetch resource_type resource_id attribute_name expected_value
      case_insensitive retries 0 false [] 0 with
  | .error e => .error e
  | .ok (met, res, sleeps) =>
    if met then
      .ok sleeps
    else
      match pyGet res attribute_name with
      | some v => .error (.assertionError
          (mismatchMsg resource_type resource_id expected_value v))
      | none => .error .keyError

/-- A Python value as passed around the command-running plumbing: either a
string, or a `testinfra` host carrying its `repr` (used by `format`) and its
`run` method. -/
inductive PyVal : Type where
  | str (s : String)
  | host (reprStr : String) (run : String → CommandResult)

/-- `"{}".format(x)` for the two value shapes above. -/
def pyFormat : PyVal → String
  | .str s => s
  | .host reprStr _ => reprStr

/-- The full shell line built by `run_on_container`: `lxc-attach` prefix plus
the quoted wrapped command. -/
def lxcWrap (command container_type : String) : String :=
  "lxc-attach -n $(lxc-ls -1 | grep " ++ container_type ++
    " | head -n 1) -- bash -c" ++ " \x27" ++ command ++ "\x27"

/-- `run_on_container(run_on_host, command, container_type)`: wraps `command`
in an `lxc-attach` invocation and calls `run_on_host.run(cmd)`.  Calling it
with a string in the `run_on_host` position raises `AttributeError`
(`str` has no `run` method). -/
def run_on_container (run_on_host command container_type : PyVal) :
    Except PyErr CommandResult :=
  let cmd := lxcWrap (pyFormat command) (pyFormat container_type)
  match run_on_host with
  | .host _ run => .ok (run cmd)
  | .str _ => .error .attributeError

/-- `get_resources_by_type`: builds the listing command, then calls
`run_on_container(cmd, 'utility', run_on_host)` — the source passes the
arguments in that order although `run_on_container`'s parameters are
`(run_on_host, command, container_type)`, so the command string lands in the
host position.  On a successful run, stdout is parsed with `json.loads`,
`ValueError` falling back to the empty list. -/
def get_resources_by_type (jsonLoads : String → Option Json)
    (run_on_host : PyVal) (resource_type : String) : Except PyErr Json :=
  let cmd := ". ~/openrc ; openstack " ++ resource_type ++ " list -f json"
  match run_on_container (.str cmd) (.str "utility") run_on_host with
  | .error e => .error e
  | .ok output =>
    match jsonLoads output.stdout with
    | some j => .ok j
    | none => .ok (.arr [])

/-- Coercion of a parsed listing to a snapshot of string-valued records, used
where the full call chain is modelled (reachable only if the inventory fetch
returned): non-object elements and non-string attribute values are dropped. -/
def jsonRecords : Json → Snapshot
  | .arr xs => xs.filterMap (fun x =>
      match x with
      | .obj kvs => some (kvs.filterMap (fun kv =>
          match kv.snd with
          | .str s => some (kv.fst, s)
          | _ => none))
      | _ => none)
  | _ => []

/-- `assert_resource_exists_by_name` along its full call chain: the snapshot
comes from `get_resources_by_type`, whose exceptions propagate (the source
catches nothing here). -/
def assert_resource_exists_by_name_chain (jsonLoads : String → Option Json)
    (run_on_host : PyVal) (resource_type resource_name : String) :
    Except PyErr Unit :=
  match get_resources_by_type jsonLoads run_on_host resource_type with
  | .error e => .error e
  | .ok j =>
    assert_resource_exists_by_name (jsonRecords j) resource_type resource_name

/-- The delete command issued by `_delete_it`. -/
def deleteCmd (resource_type addl_flags resource_id : String) : String :=
  ". ~/openrc ; openstack " ++ resource_type ++ " delete " ++ addl_flags ++
    " " ++ resource_id

/-- Assertion message of `_delete_it`. -/
def deleteFailedMsg (resource_type resource_id : String) : String :=
  "Failed to delete resource type \x27" ++ resource_type ++
    "\x27 with given ID \x27" ++ resource_id ++ "\x27!"

/-- Polling loop of `_delete_it`: poll `i` checks the snapshot `fetch i`; an
`AssertionError` from the existence check means the resource is gone and the
loop returns `True`; otherwise it sleeps and polls again; an exhausted budget
returns `False` without raising. -/
def deleteLoop (fetch : Nat → Snapshot) (resource_type resource_id : String) :
    Nat → Nat → Except PyErr Bool
  | _, 0 => .ok false
  | i, remaining + 1 =>
    match assert_resource_exists_by_id (fetch i) resource_type resource_id with
    | .error (.assertionError _) => .ok true
    | .error e => .error e
    | .ok _ => deleteLoop fetch resource_type resource_id (i + 1) remaining

/-- `_delete_it`: runs the delete command on the utility container and asserts
a zero exit status, then polls existence-by-id up to `retries` times, each
poll reading the snapshot `fetch i`. -/
def _delete_it (reprStr : String) (run : String → CommandResult)
    (fetch : Nat → Snapshot) (resource_type resource_id : String)
    (retries : Nat) (addl_flags : String) : Except PyErr Bool :=
  let cmd := deleteCmd resource_type addl_flags resource_id
  let assert_msg := deleteFailedMsg resource_type resource_id
  match run_on_container (.host reprStr run) (.str cmd) (.str "utility") with
  | .error e => .error e
  | .ok output =>
    if output.rc = 0 then
      deleteLoop fetch resource_type resource_id 0 retries
    else
      .error (.assertionError assert_msg)

/-- Shared tail of `create_bootable_volume`, `create_instance` and
`create_snapshot_from_instance`: parse stdout as JSON (`ValueError` falls back
to the raw string, which is then not a dict), assert the result is a dict
containing `'id'`, and return `uuid.UUID(result['id'])`.  A non-string `'id'`
value makes `uuid.UUID` raise `AttributeError`; a malformed string raises
`ValueError`. -/
def extractIdField (jsonLoads : String → Option Json) (assert_msg : String)
    (stdout : String) : Except PyErr String :=
  match jsonLoads stdout with
  | some (.obj kvs) =>
    match jsonGet kvs "id" with
    | some (.str s) =>
      match uuidParse s with
      | some u => .ok u
      | none => .error .valueError
    | some _ => .error .attributeError
    | none => .error (.assertionError assert_msg)
  | some _ => .error (.assertionError assert_msg)
  | none => .error (.assertionError assert_msg)

/-- The command issued by `create_bootable_volume`. -/
def volumeCreateCmd (size : Nat) (imageref zone name : String) : String :=
  ". ~/openrc ; openstack volume create -f json --size " ++
    toString size ++ " --image " ++ imageref ++ " --availability-zone " ++
    zone ++ " --bootable " ++ name

/-- `create_bootable_volume`: one command invocation; the exit status is never
inspected — the source goes straight from `run_on_container` to parsing
stdout.  `size` is the integer volume size. -/
def create_bootable_volume (jsonLoads : String → Option Json)
    (reprStr : String) (run : String → CommandResult) (size : Nat)
    (imageref name zone : String) : Except PyErr String :=
  let cmd := volumeCreateCmd size imageref zone name
  match run_on_container (.host reprStr run) (.str cmd) (.str "utility") with
  | .error e => .error e
  | .ok output =>
    extractIdField jsonLoads "Failed to create bootable volume!" output.stdout

/-- The command issued by `create_floating_ip`. -/
def floatingIpCreateCmd (network_resource_id : String) : String :=
  ". ~/openrc ; openstack floating ip create -f json " ++ network_resource_id

/-- `create_floating_ip`: one command invocation; asserts a zero exit status,
then asserts the parsed result is a dict containing
`'floating_ip_address'` and returns that value as-is. -/
def create_floating_ip (jsonLoads : String → Option Json) (reprStr : String)
    (run : String → CommandResult) (network_resource_id : String) :
    Except PyErr Json :=
  let cmd := floatingIpCreateCmd network_resource_id
  let key := "floating_ip_address"
  let assert_msg := "Failed to create floating IP!"
  match run_on_container (.host reprStr run) (.str cmd) (.str "utility") with
  | .error e => .error e
  | .ok output =>
    if output.rc = 0 then
      match jsonLoads output.stdout with
      | some (.obj kvs) =>
        match jsonGet kvs key with
        | some v => .ok v
        | none => .error (.assertionError assert_msg)
      | some _ => .error (.assertionError assert_msg)
      | none => .error (.assertionError assert_msg)
    else
      .error (.assertionError assert_msg)

/-- The command issued by `create_instance`. -/
def serverCreateCmd (image_source_name source_id flavor_name network_id
    instance_name : String) : String :=
  ". ~/openrc ; openstack server create -f json --" ++ image_source_name ++
    " " ++ source_id ++ " --flavor " ++ flavor_name ++ " --nic net-id=" ++
    network_id ++ " " ++ instance_name

/-- `create_instance`: resolves the image source and the network by name
(below the inventory fetch, on the given snapshots), then one command
invocation; the exit status is never inspected. -/
def create_instance (jsonLoads : String → Option Json) (reprStr : String)
    (run : String → CommandResult) (imageSnap networkSnap : Snapshot)
    (instance_name image_source_name image_name flavor_name
      network_name : String) : Except PyErr String :=
  match get_id_by_name imageSnap image_source_name image_name with
  | .error e => .error e
  | .ok source_id =>
    match get_id_by_name networkSnap "network" network_name with
    | .error e => .error e
    | .ok network_id =>
      let cmd := serverCreateCmd image_source_name source_id flavor_name
        network_id instance_name
      match run_on_container (.host reprStr run) (.str cmd)
          (.str "utility") with
      | .error e => .error e
      | .ok output =>
        extractIdField jsonLoads "Failed to create instance!" output.stdout

/-- The command issued by `create_snapshot_from_instance`. -/
def snapshotCreateCmd (snapshot_name instance_id : String) : String :=
  ". ~/openrc ; openstack server image create -f json --name " ++
    snapshot_name ++ " " ++ instance_id

/-- `create_snapshot_from_instance`: one command invocation; the exit status
is never inspected. -/
def create_snapshot_from_instance (jsonLoads : String → Option Json)
    (reprStr : String) (run : String → CommandResult)
    (snapshot_name instance_id : String) : Except PyErr String :=
  let cmd := snapshotCreateCmd snapshot_name instance_id
  match run_on_container (.host reprStr run) (.str cmd) (.str "utility") with
  | .error e => .error e
  | .ok output =>
    extractIdField jsonLoads "Failed to create snapshot!" output.stdout

/-- The numeric value produced by Python's `float(v)`, modelled as the exact
decimal it was parsed from: the value `num / 10 ^ exp`.  True binary floating
point is not modelled; the claims only compare values against the parses
of specific decimal literals. -/
structure PyFloat : Type where
  num : Int
  exp : Nat
  deriving DecidableEq, Repr

/-- Python's `float(v)` on plain decimal literals (optional sign, digits with
an optional decimal point); `none` models `ValueError`.  The exotic inputs
`float` also accepts (exponents, `inf`, `nan`) do not occur in the parsed
summaries and are not modelled. -/
def pyFloat (s : String) : Option PyFloat :=
  let t := (pyStrip s).data
  let (neg, body) : Bool × List Char :=
    match t with
    | c :: rest =>
      if c = Char.ofNat 45 then (true, rest)
      else if c = Char.ofNat 43 then (false, rest)
      else (false, t)
    | [] => (false, t)
  let signed : Nat → Int := fun n => if neg then -(n : Int) else (n : Int)
  match splitPred (fun c => c = Char.ofNat 46) body with
  | [ip] =>
    if ip ≠ [] && ip.all Char.isDigit then
      some ⟨signed (natOfDigits ip), 0⟩
    else
      none
  | [ip, fp] =>
    if (ip ≠ [] || fp ≠ []) && ip.all Char.isDigit
        && fp.all Char.isDigit then
      some ⟨signed (natOfDigits ip * 10 ^ fp.length + natOfDigits fp),
        fp.length⟩
    else
      none
  | _ => none

/-- Insertion into a Python dict modelled as an ordered association list:
an existing key keeps its position and gets the new value. -/
def pyDictInsert (d : List (String × PyFloat)) (k : String) (v : PyFloat) :
    List (String × PyFloat) :=
  if d.any (fun kv => kv.fst == k) then
    d.map (fun kv => if kv.fst == k then (k, v) else kv)
  else
    d ++ [(k, v)]

/-- Token loop of `parse_swift_ring_builder`: `v, k = element.split(' ')`
requires the token to split on single spaces into exactly two fields — a
token with no space, two or more spaces, or a non-numeric value raises
`ValueError`. -/
def summaryFold : List String → List (String × PyFloat) →
    Except PyErr (List (String × PyFloat))
  | [], acc => .ok acc
  | e :: rest, acc =>
    match pySplit e (Char.ofNat 32) with
    | [v, k] =>
      match pyFloat v with
      | some q => summaryFold rest (pyDictInsert acc k q)
      | none => .error .valueError
    | _ => .error .valueError

/-- `parse_swift_ring_builder`: the guard `"partitions" and "dispersion" in s`
is `("dispersion" in s)` since the literal `"partitions"` is truthy, so the
first line containing `"dispersion"` is selected; its comma-separated,
stripped tokens are folded into the metric dictionary.  No matching line
yields the empty dictionary. -/
def parse_swift_ring_builder (ring_builder_output : String) :
    Except PyErr (List (String × PyFloat)) :=
  let swift_lines := pySplit ring_builder_output (Char.ofNat 10)
  let matching := swift_lines.filter (fun l => strContains l "dispersion")
  match matching with
  | [] => .ok []
  | l :: _ => summaryFold ((pySplit l (Char.ofNat 44)).map pyStrip) []

/-- Split a character list at the first occurrence of `c`; `none` when `c`
does not occur. -/
def breakAtFirst (c : Char) : List Char → Option (List Char × List Char)
  | [] => none
  | x :: xs =>
    if x = c then
      some ([], xs)
    else
      match breakAtFirst c xs with
      | some (pre, post) => some (x :: pre, post)
      | none => none

/-- Splitting a token at its FIRST space, as the specification words it. -/
def splitFirstSpace (t : String) : Option (String × String) :=
  match breakAtFirst (Char.ofNat 32) t.data with
  | some (v, k) => some (String.mk v, String.mk k)
  | none => none

/-- Token loop of the summary parser as the specification words it: each
trimmed token is split on its FIRST space into a `(value, key)` pair; only a
token with no space or a non-numeric value is malformed. -/
def summaryFoldSpecReading : List String → List (String × PyFloat) →
    Except PyErr (List (String × PyFloat))
  | [], acc => .ok acc
  | e :: rest, acc =>
    match splitFirstSpace e with
    | some (v, k) =>
      match pyFloat v with
      | some q => summaryFoldSpecReading rest (pyDictInsert acc k q)
      | none => .error .valueError
    | none => .error .valueError

/-- The summary parser as the specification words it (identical line
selection, but tokens split at their first space), for comparison with
`parse_swift_ring_builder`. -/
def parse_swift_ring_builder_specReading (ring_builder_output : String) :
    Except PyErr (List (String × PyFloat)) :=
  let swift_lines := pySplit ring_builder_output (Char.ofNat 10)
  let matching := swift_lines.filter (fun l => strContains l "dispersion")
  match matching with
  | [] => .ok []
  | l :: _ => summaryFoldSpecReading ((pySplit l (Char.ofNat 44)).map pyStrip) []

/-- The cells of one table line: whitespace fields with the literal `|`
tokens removed. -/
def tableCells (line : String) : List String :=
  (pySplitWs line).filter (fun x => x != "|")

/-- Body of the `while len(data_row) < len(header): data_row.append('')`
loop: one `append('')` per remaining missing cell. -/
def padGo : Nat → List String → List String
  | 0, row => row
  | k + 1, row => padGo k (row ++ [""])

/-- The source's `while len(data_row) < len(header): data_row.append('')`:
the loop body runs exactly `len(header) - len(data_row)` times. -/
def padRow (row : List String) (hlen : Nat) : List String :=
  padGo (hlen - row.length) row

/-- Line loop of `parse_table`: skip empty lines (already removed) and
`-+-` separator lines; the first remaining line whose cells are taken while
`header` is still empty becomes the header; later lines become rows padded to
the header length. -/
def parseTableGo (header : List String) (data : List (List String)) :
    List String → List String × List (List String)
  | [] => (header, data)
  | line :: rest =>
    if strContains line "-+-" then
      parseTableGo header data rest
    else if header.isEmpty then
      parseTableGo (tableCells line) data rest
    else
      parseTableGo header (data ++ [padRow (tableCells line) header.length])
        rest

/-- `parse_table`: `filter(None, ascii_table.split('\n'))` drops exactly the
empty lines; then the line loop above. -/
def parse_table (ascii_table : String) : List String × List (List String) :=
  parseTableGo [] [] ((pySplit ascii_table (Char.ofNat 10)).filter (fun l => l ≠ ""))

/-! ### Helper lemmas shared across the claims -/

/-- `get_resource_by_id` either returns a record or raises a `RuntimeError`. -/
theorem get_resource_by_id_shape (resources : Snapshot) (rt rid : String) :
    (∃ r, get_resource_by_id resources rt rid = .ok r) ∨
      (∃ m, get_resource_by_id resources rt rid = .error (.runtimeError m)) := by
  unfold get_resource_by_id
  rcases (if resources.all (fun x => pyHasKey x "ID") then
      resources.filter (fun x => pyGet x "ID" == some rid) else []) with
    _ | ⟨a, _ | ⟨b, t⟩⟩
  · exact Or.inr ⟨_, rfl⟩
  · exact Or.inl ⟨a, rfl⟩
  · exact Or.inr ⟨_, rfl⟩

/-- The existence check either returns normally or raises `AssertionError`. -/
theorem assert_exists_shape (resources : Snapshot) (rt rid : String) :
    assert_resource_exists_by_id resources rt rid = .ok () ∨
      ∃ m, assert_resource_exists_by_id resources rt rid =
        .error (.assertionError m) := by
  unfold assert_resource_exists_by_id
  rcases get_resource_by_id_shape resources rt rid with ⟨r, h⟩ | ⟨m, h⟩
  · rw [h]; exact Or.inl rfl
  · rw [h]; exact Or.inr ⟨m, rfl⟩

/-- The append loop adds exactly the requested number of empty cells. -/
theorem padGo_eq (k : Nat) : ∀ cells,
    padGo k cells = cells ++ List.replicate k "" := by
  induction k with
  | zero => intro cells; simp [padGo]
  | succ k ih =>
    intro cells
    rw [padGo, ih]
    simp [List.replicate_succ]

/-- The padding loop of `parse_table` appends exactly the missing number of
empty cells; in particular it never drops a cell. -/
theorem padRow_append (cells : List String) (hlen : Nat) :
    padRow cells hlen = cells ++ List.replicate (hlen - cells.length) "" := by
  rw [padRow, padGo_eq]

/-- Invariant of the line loop of `parse_table`: every emitted row is at
least as long as the header. -/
theorem parseTableGo_rows (lines : List String) :
    ∀ header data, (∀ row ∈ data, header.length ≤ row.length) →
      (header = [] → data = []) →
      ∀ row ∈ (parseTableGo header data lines).2,
        (parseTableGo header data lines).1.length ≤ row.length := by
  induction lines with
  | nil =>
    intro header data h1 _ row hrow
    simpa [parseTableGo] using h1 row (by simpa [parseTableGo] using hrow)
  | cons line rest ih =>
    intro header data h1 h2 row hrow
    by_cases hsep : strContains line "-+-" = true
    · rw [parseTableGo, if_pos hsep] at hrow ⊢
      exact ih header data h1 h2 row hrow
    · by_cases hemp : header.isEmpty = true
      · rw [parseTableGo, if_neg hsep, if_pos hemp] at hrow ⊢
        have hdata : data = [] := h2 (List.isEmpty_iff.mp hemp)
        subst hdata
        exact ih (tableCells line) [] (by simp) (fun _ => rfl) row hrow
      · rw [parseTableGo, if_neg hsep, if_neg hemp] at hrow ⊢
        refine ih header (data ++ [padRow (tableCells line) header.length])
          ?_ ?_ row hrow
        · intro r hr
          rcases List.mem_append.mp hr with hr | hr
          · exact h1 r hr
          · have : r = padRow (tableCells line) header.length := by
              simpa using hr
            subst this
            rw [padRow_append]
            simp
            omega
        · intro h
          exact absurd (by simp [h]) hemp

/-- Stepping the attribute loop when every remaining attempt fetches a record
whose attribute value matches (exactly, or case-insensitively with the flag
set): the expectation is met and one sleep is consumed per attempt. -/
theorem attrLoop_allMatch (fetch : Nat → Snapshot)
    (rt rid attr expected : String) (ci : Bool) (r : Record) (v : String)
    (hv : pyGet r attr = some v)
    (hm : ((v == expected) || (pyLower v == expected && ci)) = true) :
    ∀ n, 1 ≤ n → ∀ i met res sleeps,
      (∀ j, j < n → get_resource_by_id (fetch (i + j)) rt rid = .ok r) →
      attrLoop fetch rt rid attr expected ci n i met res sleeps =
        .ok (true, r, sleeps + n) := by
  intro n
  induction n with
  | zero => omega
  | succ n ih =>
    intro _ i met res sleeps h
    have h0 : get_resource_by_id (fetch i) rt rid = .ok r := by
      have := h 0 (by omega)
      simpa using this
    have key : attrLoop fetch rt rid attr expected ci n (i + 1) true r
        (sleeps + 1) = .ok (true, r, sleeps + (n + 1)) := by
      rcases Nat.eq_zero_or_pos n with hn | hn
      · subst hn
        simp [attrLoop]
      · rw [ih hn (i + 1) true r (sleeps + 1)
          (fun j hj => by
            have := h (j + 1) (by omega)
            simpa [Nat.add_assoc, Nat.add_comm 1 j] using this)]
        have : sleeps + 1 + n = sleeps + (n + 1) := by omega
        rw [this]
    rw [attrLoop, h0]
    simp only [hv]
    cases hb : (v == expected) with
    | false =>
      have hb2 : (pyLower v == expected && ci) = true := by
        rw [hb] at hm; simpa using hm
      simp only [hb, hb2, Bool.false_eq_true, ite_false, ite_true]
      exact key
    | true =>
      simp only [hb, ite_true]
      exact key

/-- Stepping the attribute loop when every remaining attempt fetches a record
whose attribute value matches neither exactly nor via the enabled
case-insensitive comparison: `expectation_met` and the sleep count are left
unchanged, and the last fetched record is reported. -/
theorem attrLoop_noMatch (fetch : Nat → Snapshot)
    (rt rid attr expected : String) (ci : Bool) (r : Record) (v : String)
    (hv : pyGet r attr = some v)
    (hm : ((v == expected) || (pyLower v == expected && ci)) = false) :
    ∀ n i met res sleeps,
      (∀ j, j < n → get_resource_by_id (fetch (i + j)) rt rid = .ok r) →
      attrLoop fetch rt rid attr expected ci n i met res sleeps =
        .ok (met, (if n = 0 then res else r), sleeps) := by
  intro n
  induction n with
  | zero => intro i met res sleeps _; simp [attrLoop]
  | succ n ih =>
    intro i met res sleeps h
    have h0 : get_resource_by_id (fetch i) rt rid = .ok r := by
      have := h 0 (by omega)
      simpa using this
    have hb1 : (v == expected) = false := by
      rcases Bool.or_eq_false_iff.mp hm with ⟨h1, _⟩
      exact h1
    have hb2 : (pyLower v == expected && ci) = false := by
      rcases Bool.or_eq_false_iff.mp hm with ⟨_, h2⟩
      exact h2
    rw [attrLoop, h0]
    simp only [hv, hb1, hb2, Bool.false_eq_true, ite_false]
    rw [ih (i + 1) met r sleeps
      (fun j hj => by
        have := h (j + 1) (by omega)
        simpa [Nat.add_assoc, Nat.add_comm 1 j] using this)]
    rcases Nat.eq_zero_or_pos n with hn | hn
    · subst hn; simp
    · rw [if_neg (by omega), if_neg (by omega)]

/-- The deletion poll loop returns `False` (and does not raise) when the
resource is observably present on every remaining poll. -/
theorem deleteLoop_present (fetch : Nat → Snapshot) (rt rid : String) :
    ∀ n i, (∀ j, j < n →
        (assert_resource_exists_by_id (fetch (i + j)) rt rid).isOk = true) →
      deleteLoop fetch rt rid i n = .ok false := by
  intro n
  induction n with
  | zero => intro i _; rfl
  | succ n ih =>
    intro i h
    have h0 : assert_resource_exists_by_id (fetch i) rt rid = .ok () := by
      rcases assert_exists_shape (fetch i) rt rid with h' | ⟨m, h'⟩
      · exact h'
      · have := h 0 (by omega)
        rw [Nat.add_zero, h'] at this
        simp [Except.isOk, Except.toBool] at this
    rw [deleteLoop, h0]
    exact ih (i + 1) (fun j hj => by
      have := h (j + 1) (by omega)
      simpa [Nat.add_assoc, Nat.add_comm 1 j] using this)

/-- The deletion poll loop returns `True` as soon as a poll within the budget
finds the resource absent (the existence check raises `AssertionError`). -/
theorem deleteLoop_absent (fetch : Nat → Snapshot) (rt rid : String) :
    ∀ n i k, k < n →
      (∀ j, j < k →
        (assert_resource_exists_by_id (fetch (i + j)) rt rid).isOk = true) →
      (assert_resource_exists_by_id (fetch (i + k)) rt rid).isOk = false →
      deleteLoop fetch rt rid i n = .ok true := by
  intro n
  induction n with
  | zero => omega
  | succ n ih =>
    intro i k hk hpres habs
    rcases Nat.eq_zero_or_pos k with hk0 | hk0
    · subst hk0
      rw [Nat.add_zero] at habs
      rcases assert_exists_shape (fetch i) rt rid with h' | ⟨m, h'⟩
      · rw [h'] at habs
        simp [Except.isOk, Except.toBool] at habs
      · rw [deleteLoop, h']
    · have h0 : assert_resource_exists_by_id (fetch i) rt rid = .ok () := by
        rcases assert_exists_shape (fetch i) rt rid with h' | ⟨m, h'⟩
        · exact h'
        · have := hpres 0 (by omega)
          rw [Nat.add_zero, h'] at this
          simp [Except.isOk, Except.toBool] at this
      rw [deleteLoop, h0]
      refine ih (i + 1) (k - 1) (by omega) ?_ ?_
      · intro j hj
        have := hpres (j + 1) (by omega)
        simpa [Nat.add_assoc, Nat.add_comm 1 j] using this
      · have : i + 1 + (k - 1) = i + k := by omega
        rw [this]
        exact habs

/-! ### Concrete fixtures used by counterexamples and witnesses -/

/-- A snapshot holding exactly one record whose identifier field equals
`"a"`, next to a record that has no identifier field at all. -/
def snapMixedId : Snapshot :=
  [[("ID", "a")], []]

/-- A timeline on which the inventory is empty on attempt 0 and contains the
target record from attempt 1 on. -/
def fetchAppears : Nat → Snapshot :=
  fun i => if i = 0 then [] else [[("ID", "a")]]

/-- A `json.loads` oracle agreeing with real JSON on the empty listing. -/
def jlEmptyList : String → Option Json :=
  fun s => if s = "[]" then some (.arr []) else none

/-! ### Claims -/

/-- C1 (counterexample): in the snapshot `snapMixedId` exactly one record's
identifier field equals the target `"a"`, yet lookup-by-identifier and
existence-by-identifier both fail with the NotFound error: the membership
comprehension aborts with `KeyError` on the record lacking `'ID'`, which the
handler turns into "no matches". -/
theorem c1_counterexample :
    (snapMixedId.filter (fun x => pyGet x "ID" == some "a")).length = 1 ∧
    get_resource_by_id snapMixedId "server" "a" =
      .error (.runtimeError (notFoundMsg "server" "a")) ∧
    assert_resource_exists_by_id snapMixedId "server" "a" =
      .error (.assertionError (notFoundMsg "server" "a")) :=
  ⟨by decide, rfl, rfl⟩

/-- C1 (amended): provided every record of the snapshot carries the
identifier field, lookup-by-identifier and existence-by-identifier succeed
with the unique matching record when there is exactly one match, fail with
the NotFound error on zero matches, and fail with the AmbiguousResult error
on two or more matches; a snapshot in which any record lacks the identifier
field is treated as having zero matches, hence NotFound, even if some record
matches. -/
theorem c1_amended (resources : Snapshot) (rt rid : String) :
    (resources.all (fun x => pyHasKey x "ID") = true →
      ((∀ r, resources.filter (fun x => pyGet x "ID" == some rid) = [r] →
          get_resource_by_id resources rt rid = .ok r ∧
          assert_resource_exists_by_id resources rt rid = .ok ()) ∧
       (resources.filter (fun x => pyGet x "ID" == some rid) = [] →
          get_resource_by_id resources rt rid =
            .error (.runtimeError (notFoundMsg rt rid)) ∧
          assert_resource_exists_by_id resources rt rid =
            .error (.assertionError (notFoundMsg rt rid))) ∧
       (∀ r1 r2 rest,
          resources.filter (fun x => pyGet x "ID" == some rid) =
            r1 :: r2 :: rest →
          get_resource_by_id resources rt rid =
            .error (.runtimeError (multipleMsg rt)) ∧
          assert_resource_exists_by_id resources rt rid =
            .error (.assertionError (multipleMsg rt))))) ∧
    (resources.all (fun x => pyHasKey x "ID") = false →
      get_resource_by_id resources rt rid =
        .error (.runtimeError (notFoundMsg rt rid)) ∧
      assert_resource_exists_by_id resources rt rid =
        .error (.assertionError (notFoundMsg rt rid))) := by
  constructor
  · intro hall
    refine ⟨?_, ?_, ?_⟩
    · intro r hf
      have hg : get_resource_by_id resources rt rid = .ok r := by
        simp only [get_resource_by_id]
        rw [if_pos hall, hf]
      refine ⟨hg, ?_⟩
      unfold assert_resource_exists_by_id
      rw [hg]
    · intro hf
      have hg : get_resource_by_id resources rt rid =
          .error (.runtimeError (notFoundMsg rt rid)) := by
        simp only [get_resource_by_id]
        rw [if_pos hall, hf]
      refine ⟨hg, ?_⟩
      unfold assert_resource_exists_by_id
      rw [hg]
    · intro r1 r2 rest hf
      have hg : get_resource_by_id resources rt rid =
          .error (.runtimeError (multipleMsg rt)) := by
        simp only [get_resource_by_id]
        rw [if_pos hall, hf]
      refine ⟨hg, ?_⟩
      unfold assert_resource_exists_by_id
      rw [hg]
  · intro hall
    have hg : get_resource_by_id resources rt rid =
        .error (.runtimeError (notFoundMsg rt rid)) := by
      simp only [get_resource_by_id]
      rw [if_neg (by simp [hall])]
    refine ⟨hg, ?_⟩
    unfold assert_resource_exists_by_id
    rw [hg]

/-- C1 (witness): the amended trichotomy evaluated on concrete snapshots —
a unique match, no match, a duplicated match, and a mixed snapshot with a
record lacking the identifier field. -/
theorem c1_witness :
    (get_resource_by_id [[("ID", "a")], [("ID", "b")]] "server" "a" =
        .ok [("ID", "a")] ∧
      assert_resource_exists_by_id [[("ID", "a")], [("ID", "b")]] "server"
        "a" = .ok ()) ∧
    (get_resource_by_id [[("ID", "b")]] "server" "a" =
        .error (.runtimeError (notFoundMsg "server" "a")) ∧
      assert_resource_exists_by_id [[("ID", "b")]] "server" "a" =
        .error (.assertionError (notFoundMsg "server" "a"))) ∧
    (get_resource_by_id [[("ID", "a")], [("ID", "a")]] "server" "a" =
        .error (.runtimeError (multipleMsg "server")) ∧
      assert_resource_exists_by_id [[("ID", "a")], [("ID", "a")]] "server"
        "a" = .error (.assertionError (multipleMsg "server"))) ∧
    (get_resource_by_id snapMixedId "volume" "a" =
        .error (.runtimeError (notFoundMsg "volume" "a")) ∧
      assert_resource_exists_by_id snapMixedId "volume" "a" =
        .error (.assertionError (notFoundMsg "volume" "a"))) :=
  ⟨((c1_amended [[("ID", "a")], [("ID", "b")]] "server" "a").1
      (by decide)).1 [("ID", "a")] (by decide),
   ((c1_amended [[("ID", "b")]] "server" "a").1 (by decide)).2.1 (by decide),
   ((c1_amended [[("ID", "a")], [("ID", "a")]] "server" "a").1
      (by decide)).2.2 [("ID", "a")] [("ID", "a")] [] (by decide),
   (c1_amended snapMixedId "volume" "a").2 (by decide)⟩

/-- C3 (counterexample): on the timeline `fetchAppears` the resource is
absent on attempt 0 but present from attempt 1 on; the existence check has
already failed on its single lookup, although a second lookup would have
succeeded — there is no retry loop in `assert_resource_exists_by_id`. -/
theorem c3_counterexample :
    assert_resource_exists_by_id (fetchAppears 0) "server" "a" =
      .error (.assertionError (notFoundMsg "server" "a")) ∧
    get_resource_by_id (fetchAppears 1) "server" "a" = .ok [("ID", "a")] :=
  ⟨rfl, rfl⟩

/-- C3 (amended): existence-by-identifier performs exactly one
lookup-by-identifier (its model consumes a single snapshot); it succeeds iff
that lookup succeeds, and any lookup `RuntimeError` — NotFound as well as
AmbiguousResult — is re-raised as a verification failure carrying the
lookup's message, which names the resource type and identifier. -/
theorem c3_amended (resources : Snapshot) (rt rid : String) :
    (∀ r, get_resource_by_id resources rt rid = .ok r →
       assert_resource_exists_by_id resources rt rid = .ok ()) ∧
    (∀ m, get_resource_by_id resources rt rid = .error (.runtimeError m) →
       assert_resource_exists_by_id resources rt rid =
         .error (.assertionError m)) := by
  constructor
  · intro r h
    unfold assert_resource_exists_by_id
    rw [h]
  · intro m h
    unfold assert_resource_exists_by_id
    rw [h]

/-- C3 (witness): the amended behaviour on a present and on an absent
resource. -/
theorem c3_witness :
    assert_resource_exists_by_id [[("ID", "a")]] "server" "a" = .ok () ∧
    assert_resource_exists_by_id [] "server" "a" =
      .error (.assertionError (notFoundMsg "server" "a")) :=
  ⟨(c3_amended [[("ID", "a")]] "server" "a").1 [("ID", "a")] rfl,
   (c3_amended [] "server" "a").2 (notFoundMsg "server" "a") rfl⟩

/-- C10 (counterexample): along the real call chain
`assert_resource_exists_by_name` does not return normally for any input: the
inventory fetch passes its arguments to `run_on_container` transposed and the
call raises `AttributeError` — here at a concrete well-formed host whose
runner returns an empty JSON listing. -/
theorem c10_counterexample :
    assert_resource_exists_by_name_chain jlEmptyList
      (.host "node1" (fun _ => ⟨0, "[]"⟩)) "server" "missing" =
      .error .attributeError :=
  rfl

/-- C10 (amended): given the fetched inventory snapshot, the existence
assertion returns normally for every host-independent input — the `assert`
statement tests the two-element tuple `(result, message)`, which is always
truthy, so this check can never fail; the only way the full call fails is
the `AttributeError` of the broken inventory fetch. -/
theorem c10_amended (resources : Snapshot) (rt rname : String) :
    assert_resource_exists_by_name resources rt rname = .ok () :=
  rfl

/-- A constant timeline: the resource's `status` reads `"ACTIVE"` on every
attempt, from the very first one on. -/
def fetchActive : Nat → Snapshot :=
  fun _ => [[("ID", "id1"), ("status", "ACTIVE")]]

/-- C2 (counterexample): with expected `"active"`, case-insensitive matching
enabled (the default) and the attribute reading `"ACTIVE"` from the first
attempt on, attribute-convergence at the default budget succeeds but consumes
TEN delay intervals, not one: the loop has no `break`, so every one of the 10
matching attempts sleeps. -/
theorem c2_counterexample :
    assert_resource_attribute_value fetchActive "server" "id1" "status"
      "active" defaultRetries defaultCaseInsensitive = .ok 10 ∧
    (10 : Nat) ≠ 1 :=
  ⟨rfl, by decide⟩

/-- C2 (amended): when on every one of the `retries` attempts the fetched
record's attribute matches the expected value (exactly, or case-insensitively
with the flag enabled), the call succeeds and consumes one delay interval per
attempt — `retries` sleeps in total, not one. -/
theorem c2_amended (fetch : Nat → Snapshot)
    (rt rid attr expected : String) (ci : Bool) (r : Record) (v : String)
    (retries : Nat) (hret : 1 ≤ retries)
    (hfetch : ∀ i, i < retries → get_resource_by_id (fetch i) rt rid = .ok r)
    (hv : pyGet r attr = some v)
    (hm : ((v == expected) || (pyLower v == expected && ci)) = true) :
    assert_resource_attribute_value fetch rt rid attr expected retries ci =
      .ok retries := by
  unfold assert_resource_attribute_value
  rw [attrLoop_allMatch fetch rt rid attr expected ci r v hv hm retries hret
    0 false [] 0 (fun j hj => by simpa using hfetch j hj)]
  simp

/-- C2 (witness): the amended count at a concrete two-attempt budget with a
first-attempt case-insensitive match: two sleeps. -/
theorem c2_witness :
    assert_resource_attribute_value fetchActive "server" "id1" "status"
      "active" 2 true = .ok 2 :=
  c2_amended fetchActive "server" "id1" "status" "active" true
    [("ID", "id1"), ("status", "ACTIVE")] "ACTIVE" 2 (by decide)
    (fun _ _ => rfl) rfl (by decide)

/-- A constant timeline whose record's `state` reads `"UP"`. -/
def fetchUpper : Nat → Snapshot :=
  fun _ => [[("ID", "i2"), ("state", "UP")]]

/-- C6 (counterexample): the `case_insensitive` parameter defaults to `True`,
so with the default flag a case-differing value (`"UP"` vs expected `"up"`)
already passes; only an explicit opt-out makes the same call fail.  The
default is therefore case-insensitive, not case-sensitive. -/
theorem c6_counterexample :
    defaultCaseInsensitive = true ∧
    assert_resource_attribute_value fetchUpper "port" "i2" "state" "up" 1
      defaultCaseInsensitive = .ok 1 ∧
    assert_resource_attribute_value fetchUpper "port" "i2" "state" "up" 1
      false = .error (.assertionError (mismatchMsg "port" "i2" "up" "UP")) :=
  ⟨rfl, rfl, rfl⟩

/-- C6 (amended): comparison is case-insensitive by default
(`case_insensitive` defaults to `True`), with only the observed value being
lowercased; the caller must opt out to obtain the strict case-sensitive
comparison, under which the same case-differing value exhausts the budget
and fails reporting expected and last-observed values. -/
theorem c6_amended :
    defaultCaseInsensitive = true ∧
    ∀ (fetch : Nat → Snapshot) (rt rid attr expected : String) (r : Record)
      (v : String) (retries : Nat), 1 ≤ retries →
      (∀ i, i < retries → get_resource_by_id (fetch i) rt rid = .ok r) →
      pyGet r attr = some v → v ≠ expected → pyLower v = expected →
      (assert_resource_attribute_value fetch rt rid attr expected retries
          true = .ok retries ∧
       assert_resource_attribute_value fetch rt rid attr expected retries
          false =
         .error (.assertionError (mismatchMsg rt rid expected v))) := by
  refine ⟨rfl, ?_⟩
  intro fetch rt rid attr expected r v retries hret hfetch hv hne hlow
  have hbne : (v == expected) = false := by
    simp [hne]
  constructor
  · unfold assert_resource_attribute_value
    rw [attrLoop_allMatch fetch rt rid attr expected true r v hv
      (by simp [hbne, hlow]) retries hret 0 false [] 0
      (fun j hj => by simpa using hfetch j hj)]
    simp
  · unfold assert_resource_attribute_value
    rw [attrLoop_noMatch fetch rt rid attr expected false r v hv
      (by simp [hbne]) retries 0 false [] 0
      (fun j hj => by simpa using hfetch j hj)]
    rw [if_neg (by omega)]
    simp [hv]

/-- C6 (witness): the amended dichotomy at a concrete three-attempt budget:
the flag on passes (three sleeps), the flag off fails with the mismatch
message. -/
theorem c6_witness :
    assert_resource_attribute_value fetchUpper "port" "i2" "state" "up" 3
      true = .ok 3 ∧
    assert_resource_attribute_value fetchUpper "port" "i2" "state" "up" 3
      false = .error (.assertionError (mismatchMsg "port" "i2" "up" "UP")) :=
  c6_amended.2 fetchUpper "port" "i2" "state" "up"
    [("ID", "i2"), ("state", "UP")] "UP" 3 (by decide) (fun _ _ => rfl) rfl
    (by decide) (by decide)

/-- C4: deletion-confirmation, with the delete command exiting zero — if the
resource is observably present (existence check passes) on every poll before
the `N`-th and absent (existence check fails) on poll `N`, for any
`1 ≤ N ≤ retries`, the call returns `True`; if the resource stays present on
all `retries` polls, it returns `False` without raising. -/
theorem c4_delete_confirmation (reprStr : String)
    (run : String → CommandResult) (fetch : Nat → Snapshot)
    (rt rid addl : String) (retries : Nat)
    (hrc : (run (lxcWrap (deleteCmd rt addl rid) "utility")).rc = 0) :
    (∀ N, 1 ≤ N → N ≤ retries →
      (∀ i, i < N - 1 →
        (assert_resource_exists_by_id (fetch i) rt rid).isOk = true) →
      (assert_resource_exists_by_id (fetch (N - 1)) rt rid).isOk = false →
      _delete_it reprStr run fetch rt rid retries addl = .ok true) ∧
    ((∀ i, i < retries →
        (assert_resource_exists_by_id (fetch i) rt rid).isOk = true) →
      _delete_it reprStr run fetch rt rid retries addl = .ok false) := by
  have hstart : _delete_it reprStr run fetch rt rid retries addl =
      deleteLoop fetch rt rid 0 retries := by
    unfold _delete_it run_on_container
    simp only [pyFormat]
    rw [if_pos hrc]
  constructor
  · intro N h1 h2 hpres habs
    rw [hstart]
    refine deleteLoop_absent fetch rt rid retries 0 (N - 1) (by omega)
      (fun j hj => by simpa using hpres j hj) (by simpa using habs)
  · intro hpres
    rw [hstart]
    exact deleteLoop_present fetch rt rid retries 0
      (fun j hj => by simpa using hpres j hj)

/-- A runner whose every command exits zero with empty output. -/
def runOk : String → CommandResult :=
  fun _ => ⟨0, ""⟩

/-- A timeline on which the resource is present on polls 0 and 1 and gone
from poll 2 on. -/
def fetchGoneAt2 : Nat → Snapshot :=
  fun i => if i < 2 then [[("ID", "a")]] else []

/-- C4 (witness): deletion confirmed on poll 3 of a 5-poll budget, and not
confirmed — `False`, no exception — when the resource survives a 3-poll
budget. -/
theorem c4_witness :
    _delete_it "node1" runOk fetchGoneAt2 "volume" "a" 5 "" = .ok true ∧
    _delete_it "node1" runOk (fun _ => [[("ID", "a")]]) "volume" "a" 3 "" =
      .ok false :=
  ⟨(c4_delete_confirmation "node1" runOk fetchGoneAt2 "volume" "a" "" 5
      rfl).1 3 (by decide) (by decide) (by decide) (by decide),
   (c4_delete_confirmation "node1" runOk (fun _ => [[("ID", "a")]]) "volume"
      "a" "" 3 rfl).2 (by decide)⟩

/-- C7: the inventory accessor never returns at all — for every `json.loads`
oracle, host and resource type it raises `AttributeError`, because it passes
`(cmd, 'utility', run_on_host)` to `run_on_container`, whose parameters are
`(run_on_host, command, container_type)`, so `.run` is invoked on the command
string.  In particular it does not return an empty snapshot on unparseable
stdout. -/
theorem c7_code_bug (jsonLoads : String → Option Json) (run_on_host : PyVal)
    (resource_type : String) :
    get_resources_by_type jsonLoads run_on_host resource_type =
      .error .attributeError :=
  rfl

/-- A syntactically valid resource identifier. -/
def uuidHexStr : String :=
  "3e2c5b0a-1111-2222-3333-444455556666"

/-- The JSON text `{"id": "<uuidHexStr>"}` as emitted by a create command. -/
def volJson : String :=
  "\x7b\x22id\x22: \x223e2c5b0a-1111-2222-3333-444455556666\x22\x7d"

/-- A `json.loads` oracle agreeing with real JSON on `volJson`. -/
def jlVol : String → Option Json :=
  fun s => if s = volJson then some (.obj [("id", .str uuidHexStr)]) else none

/-- A runner whose command FAILS (exit status 1) yet still prints the
well-formed create result on stdout. -/
def runFailedVol : String → CommandResult :=
  fun _ => ⟨1, volJson⟩

/-- C5 (counterexample): `create_bootable_volume` performs no exit-status
check — with a runner that exits 1 while printing a well-formed JSON result,
the call succeeds and returns the identifier instead of failing fatally. -/
theorem c5_counterexample :
    create_bootable_volume jlVol "node1" runFailedVol 1 "img" "vol" "nova" =
      .ok "3e2c5b0a111122223333444455556666" ∧
    (runFailedVol
      (lxcWrap (volumeCreateCmd 1 "img" "nova" "vol") "utility")).rc = 1 :=
  ⟨rfl, rfl⟩

/-- C5 (amended): among the mutating actions only `create_floating_ip`
asserts a zero exit status (failing fatally on a non-zero one);
`create_bootable_volume`, `create_snapshot_from_instance` and
`create_instance` never inspect the exit status — their outcome depends on
the command result only through its stdout; all four do assert that the
parsed result is a structured record containing their identifier field
(`'id'`, resp. `'floating_ip_address'`) before extracting and returning it,
failing with their fatal message when stdout is not a JSON record or the
field is absent; and each issues its single command without re-issuing it. -/
theorem c5_amended :
    (∀ (jl : String → Option Json) (reprStr : String)
       (run : String → CommandResult) (nid : String),
       (run (lxcWrap (floatingIpCreateCmd nid) "utility")).rc ≠ 0 →
       create_floating_ip jl reprStr run nid =
         .error (.assertionError "Failed to create floating IP!")) ∧
    (∀ (jl : String → Option Json) (reprStr : String) (size : Nat)
       (imageref name zone : String) (o o' : CommandResult),
       o.stdout = o'.stdout →
       create_bootable_volume jl reprStr (fun _ => o) size imageref name
           zone =
         create_bootable_volume jl reprStr (fun _ => o') size imageref name
           zone) ∧
    (∀ (jl : String → Option Json) (reprStr : String)
       (snapshot_name instance_id : String) (o o' : CommandResult),
       o.stdout = o'.stdout →
       create_snapshot_from_instance jl reprStr (fun _ => o) snapshot_name
           instance_id =
         create_snapshot_from_instance jl reprStr (fun _ => o') snapshot_name
           instance_id) ∧
    (∀ (jl : String → Option Json) (reprStr : String)
       (imageSnap networkSnap : Snapshot)
       (a b c d e : String) (o o' : CommandResult),
       o.stdout = o'.stdout →
       create_instance jl reprStr (fun _ => o) imageSnap networkSnap
           a b c d e =
         create_instance jl reprStr (fun _ => o') imageSnap networkSnap
           a b c d e) ∧
    (∀ (jl : String → Option Json) (reprStr : String)
       (run : String → CommandResult) (size : Nat)
       (imageref name zone : String) (kvs : List (String × Json)),
       jl ((run (lxcWrap (volumeCreateCmd size imageref zone name)
           "utility")).stdout) = some (.obj kvs) →
       jsonGet kvs "id" = none →
       create_bootable_volume jl reprStr run size imageref name zone =
         .error (.assertionError "Failed to create bootable volume!")) ∧
    (∀ (jl : String → Option Json) (reprStr : String)
       (run : String → CommandResult) (size : Nat)
       (imageref name zone : String),
       jl ((run (lxcWrap (volumeCreateCmd size imageref zone name)
           "utility")).stdout) = none →
       create_bootable_volume jl reprStr run size imageref name zone =
         .error (.assertionError "Failed to create bootable volume!")) ∧
    (∀ (jl : String → Option Json) (reprStr : String)
       (run : String → CommandResult) (size : Nat)
       (imageref name zone : String) (kvs : List (String × Json))
       (s u : String),
       jl ((run (lxcWrap (volumeCreateCmd size imageref zone name)
           "utility")).stdout) = some (.obj kvs) →
       jsonGet kvs "id" = some (.str s) →
       uuidParse s = some u →
       create_bootable_volume jl reprStr run size imageref name zone =
         .ok u) ∧
    (∀ (jl : String → Option Json) (reprStr : String)
       (run : String → CommandResult) (snapshot_name instance_id : String)
       (kvs : List (String × Json)),
       jl ((run (lxcWrap (snapshotCreateCmd snapshot_name instance_id)
           "utility")).stdout) = some (.obj kvs) →
       jsonGet kvs "id" = none →
       create_snapshot_from_instance jl reprStr run snapshot_name
           instance_id =
         .error (.assertionError "Failed to create snapshot!")) ∧
    (∀ (jl : String → Option Json) (reprStr : String)
       (run : String → CommandResult) (snapshot_name instance_id : String),
       jl ((run (lxcWrap (snapshotCreateCmd snapshot_name instance_id)
           "utility")).stdout) = none →
       create_snapshot_from_instance jl reprStr run snapshot_name
           instance_id =
         .error (.assertionError "Failed to create snapshot!")) ∧
    (∀ (jl : String → Option Json) (reprStr : String)
       (run : String → CommandResult) (snapshot_name instance_id : String)
       (kvs : List (String × Json)) (s u : String),
       jl ((run (lxcWrap (snapshotCreateCmd snapshot_name instance_id)
           "utility")).stdout) = some (.obj kvs) →
       jsonGet kvs "id" = some (.str s) →
       uuidParse s = some u →
       create_snapshot_from_instance jl reprStr run snapshot_name
           instance_id = .ok u) ∧
    (∀ (jl : String → Option Json) (reprStr : String)
       (run : String → CommandResult) (imageSnap networkSnap : Snapshot)
       (a b c d e sid nid : String) (kvs : List (String × Json)),
       get_id_by_name imageSnap b c = .ok sid →
       get_id_by_name networkSnap "network" e = .ok nid →
       jl ((run (lxcWrap (serverCreateCmd b sid d nid a)
           "utility")).stdout) = some (.obj kvs) →
       jsonGet kvs "id" = none →
       create_instance jl reprStr run imageSnap networkSnap a b c d e =
         .error (.assertionError "Failed to create instance!")) ∧
    (∀ (jl : String → Option Json) (reprStr : String)
       (run : String → CommandResult) (imageSnap networkSnap : Snapshot)
       (a b c d e sid nid : String),
       get_id_by_name imageSnap b c = .ok sid →
       get_id_by_name networkSnap "network" e = .ok nid →
       jl ((run (lxcWrap (serverCreateCmd b sid d nid a)
           "utility")).stdout) = none →
       create_instance jl reprStr run imageSnap networkSnap a b c d e =
         .error (.assertionError "Failed to create instance!")) ∧
    (∀ (jl : String → Option Json) (reprStr : String)
       (run : String → CommandResult) (imageSnap networkSnap : Snapshot)
       (a b c d e sid nid : String) (kvs : List (String × Json))
       (s u : String),
       get_id_by_name imageSnap b c = .ok sid →
       get_id_by_name networkSnap "network" e = .ok nid →
       jl ((run (lxcWrap (serverCreateCmd b sid d nid a)
           "utility")).stdout) = some (.obj kvs) →
       jsonGet kvs "id" = some (.str s) →
       uuidParse s = some u →
       create_instance jl reprStr run imageSnap networkSnap a b c d e =
         .ok u) ∧
    (∀ (jl : String → Option Json) (reprStr : String)
       (run : String → CommandResult) (nid : String)
       (kvs : List (String × Json)),
       (run (lxcWrap (floatingIpCreateCmd nid) "utility")).rc = 0 →
       jl ((run (lxcWrap (floatingIpCreateCmd nid) "utility")).stdout) =
         some (.obj kvs) →
       jsonGet kvs "floating_ip_address" = none →
       create_floating_ip jl reprStr run nid =
         .error (.assertionError "Failed to create floating IP!")) ∧
    (∀ (jl : String → Option Json) (reprStr : String)
       (run : String → CommandResult) (nid : String),
       (run (lxcWrap (floatingIpCreateCmd nid) "utility")).rc = 0 →
       jl ((run (lxcWrap (floatingIpCreateCmd nid) "utility")).stdout) =
         none →
       create_floating_ip jl reprStr run nid =
         .error (.assertionError "Failed to create floating IP!")) ∧
    (∀ (jl : String → Option Json) (reprStr : String)
       (run : String → CommandResult) (nid : String)
       (kvs : List (String × Json)) (v : Json),
       (run (lxcWrap (floatingIpCreateCmd nid) "utility")).rc = 0 →
       jl ((run (lxcWrap (floatingIpCreateCmd nid) "utility")).stdout) =
         some (.obj kvs) →
       jsonGet kvs "floating_ip_address" = some v →
       create_floating_ip jl reprStr run nid = .ok v) := by
  refine ⟨?_, ?_, ?_, ?_, ?_, ?_, ?_, ?_, ?_, ?_, ?_, ?_, ?_, ?_, ?_, ?_⟩
  · intro jl reprStr run nid h
    unfold create_floating_ip run_on_container
    simp only [pyFormat]
    rw [if_neg h]
  · intro jl reprStr size imageref name zone o o' h
    unfold create_bootable_volume run_on_container
    simp only [pyFormat]
    rw [h]
  · intro jl reprStr snapshot_name instance_id o o' h
    unfold create_snapshot_from_instance run_on_container
    simp only [pyFormat]
    rw [h]
  · intro jl reprStr imageSnap networkSnap a b c d e o o' h
    unfold create_instance run_on_container
    simp only [pyFormat]
    cases get_id_by_name imageSnap b c with
    | error e1 => rfl
    | ok sid =>
      cases get_id_by_name networkSnap "network" e with
      | error e2 => rfl
      | ok nid =>
        simp only [h]
  · intro jl reprStr run size imageref name zone kvs hjl hid
    unfold create_bootable_volume run_on_container extractIdField
    simp only [pyFormat, hjl, hid]
  · intro jl reprStr run size imageref name zone hjl
    unfold create_bootable_volume run_on_container extractIdField
    simp only [pyFormat, hjl]
  · intro jl reprStr run size imageref name zone kvs s u hjl hid hu
    unfold create_bootable_volume run_on_container extractIdField
    simp only [pyFormat, hjl, hid, hu]
  · intro jl reprStr run snapshot_name instance_id kvs hjl hid
    unfold create_snapshot_from_instance run_on_container extractIdField
    simp only [pyFormat, hjl, hid]
  · intro jl reprStr run snapshot_name instance_id hjl
    unfold create_snapshot_from_instance run_on_container extractIdField
    simp only [pyFormat, hjl]
  · intro jl reprStr run snapshot_name instance_id kvs s u hjl hid hu
    unfold create_snapshot_from_instance run_on_container extractIdField
    simp only [pyFormat, hjl, hid, hu]
  · intro jl reprStr run imageSnap networkSnap a b c d e sid nid kvs h1 h2
      hjl hid
    unfold create_instance run_on_container extractIdField
    simp only [pyFormat, h1, h2, hjl, hid]
  · intro jl reprStr run imageSnap networkSnap a b c d e sid nid h1 h2 hjl
    unfold create_instance run_on_container extractIdField
    simp only [pyFormat, h1, h2, hjl]
  · intro jl reprStr run imageSnap networkSnap a b c d e sid nid kvs s u h1
      h2 hjl hid hu
    unfold create_instance run_on_container extractIdField
    simp only [pyFormat, h1, h2, hjl, hid, hu]
  · intro jl reprStr run nid kvs hrc hjl hkey
    unfold create_floating_ip run_on_container
    simp only [pyFormat]
    rw [if_pos hrc]
    simp only [hjl, hkey]
  · intro jl reprStr run nid hrc hjl
    unfold create_floating_ip run_on_container
    simp only [pyFormat]
    rw [if_pos hrc]
    simp only [hjl]
  · intro jl reprStr run nid kvs v hrc hjl hkey
    unfold create_floating_ip run_on_container
    simp only [pyFormat]
    rw [if_pos hrc]
    simp only [hjl, hkey]

/-- A `json.loads` oracle that parses everything as a record without an
identifier field. -/
def jlNoId : String → Option Json :=
  fun _ => some (.obj [("name", .str "v")])

/-- A `json.loads` oracle on which every parse fails. -/
def jlNever : String → Option Json :=
  fun _ => none

/-- A `json.loads` oracle that parses everything as a floating-ip record. -/
def jlFipOk : String → Option Json :=
  fun _ => some (.obj [("floating_ip_address", .str "10.0.0.3")])

/-- An image snapshot resolving the name `"img"` to `uuidHexStr`. -/
def snapImg : Snapshot :=
  [[("ID", uuidHexStr), ("Name", "img")]]

/-- A network snapshot resolving the name `"net1"` to `uuidHexStr`. -/
def snapNet : Snapshot :=
  [[("ID", uuidHexStr), ("Name", "net1")]]

/-- C5 (witness): the amended behaviours at concrete inputs — floating-ip
creation fails on exit status 1 but succeeds or fails on the
`'floating_ip_address'` key at exit status 0; bootable-volume creation gives
the same outcome under exit statuses 1 and 0 with identical stdout; and each
of the four actions fails with its fatal message when the record lacks its
identifier field or stdout is unparseable, extracting the identifier when it
is present. -/
theorem c5_witness :
    create_floating_ip jlVol "node1" runFailedVol "net1" =
      .error (.assertionError "Failed to create floating IP!") ∧
    create_bootable_volume jlVol "node1" (fun _ => ⟨1, volJson⟩) 1 "img"
        "vol" "nova" =
      create_bootable_volume jlVol "node1" (fun _ => ⟨0, volJson⟩) 1 "img"
        "vol" "nova" ∧
    create_bootable_volume jlNoId "node1" runOk 1 "img" "vol" "nova" =
      .error (.assertionError "Failed to create bootable volume!") ∧
    create_bootable_volume jlNever "node1" runOk 1 "img" "vol" "nova" =
      .error (.assertionError "Failed to create bootable volume!") ∧
    create_snapshot_from_instance jlNoId "node1" runOk "snap" "i1" =
      .error (.assertionError "Failed to create snapshot!") ∧
    create_snapshot_from_instance jlNever "node1" runOk "snap" "i1" =
      .error (.assertionError "Failed to create snapshot!") ∧
    create_snapshot_from_instance jlVol "node1" runFailedVol "snap" "i1" =
      .ok "3e2c5b0a111122223333444455556666" ∧
    create_instance jlNoId "node1" runOk snapImg snapNet "inst" "image"
        "img" "m1" "net1" =
      .error (.assertionError "Failed to create instance!") ∧
    create_instance jlNever "node1" runOk snapImg snapNet "inst" "image"
        "img" "m1" "net1" =
      .error (.assertionError "Failed to create instance!") ∧
    create_instance jlVol "node1" runFailedVol snapImg snapNet "inst"
        "image" "img" "m1" "net1" =
      .ok "3e2c5b0a111122223333444455556666" ∧
    create_floating_ip jlNoId "node1" runOk "net1" =
      .error (.assertionError "Failed to create floating IP!") ∧
    create_floating_ip jlNever "node1" runOk "net1" =
      .error (.assertionError "Failed to create floating IP!") ∧
    create_floating_ip jlFipOk "node1" runOk "net1" =
      .ok (.str "10.0.0.3") := by
  obtain ⟨h1, h2, _h3, _h4, h5, h6, _h7, h8, h9, h10, h11, h12, h13, h14,
    h15, h16⟩ := c5_amended
  exact ⟨h1 jlVol "node1" runFailedVol "net1" (by decide),
    h2 jlVol "node1" 1 "img" "vol" "nova" ⟨1, volJson⟩ ⟨0, volJson⟩ rfl,
    h5 jlNoId "node1" runOk 1 "img" "vol" "nova" [("name", .str "v")] rfl
      rfl,
    h6 jlNever "node1" runOk 1 "img" "vol" "nova" rfl,
    h8 jlNoId "node1" runOk "snap" "i1" [("name", .str "v")] rfl rfl,
    h9 jlNever "node1" runOk "snap" "i1" rfl,
    h10 jlVol "node1" runFailedVol "snap" "i1"
      [("id", .str uuidHexStr)] uuidHexStr
      "3e2c5b0a111122223333444455556666" rfl rfl rfl,
    h11 jlNoId "node1" runOk snapImg snapNet "inst" "image" "img" "m1"
      "net1" "3e2c5b0a111122223333444455556666"
      "3e2c5b0a111122223333444455556666" [("name", .str "v")] rfl rfl rfl
      rfl,
    h12 jlNever "node1" runOk snapImg snapNet "inst" "image" "img" "m1"
      "net1" "3e2c5b0a111122223333444455556666"
      "3e2c5b0a111122223333444455556666" rfl rfl rfl,
    h13 jlVol "node1" runFailedVol snapImg snapNet "inst" "image" "img"
      "m1" "net1" "3e2c5b0a111122223333444455556666"
      "3e2c5b0a111122223333444455556666" [("id", .str uuidHexStr)]
      uuidHexStr "3e2c5b0a111122223333444455556666" rfl rfl rfl rfl rfl,
    h14 jlNoId "node1" runOk "net1" [("name", .str "v")] rfl rfl rfl,
    h15 jlNever "node1" runOk "net1" rfl rfl,
    h16 jlFipOk "node1" runOk "net1"
      [("floating_ip_address", .str "10.0.0.3")] (.str "10.0.0.3") rfl rfl
      rfl⟩

/-- A summary line containing `"dispersion"` in which one token carries two
spaces. -/
def ringLineTwoSpaces : String :=
  "1.0 a b, 0.0 dispersion"

/-- C8 (counterexample): on a selected line with the token `"1.0 a b"`, the
source's `v, k = element.split(' ')` unpacking raises `ValueError` — the
parser crashes — whereas the claim's split-at-first-space reading returns the
mapping `{"a b": 1.0, "dispersion": 0.0}`. -/
theorem c8_counterexample :
    parse_swift_ring_builder ringLineTwoSpaces = .error .valueError ∧
    parse_swift_ring_builder_specReading ringLineTwoSpaces =
      .ok [("a b", ⟨10, 1⟩), ("dispersion", ⟨0, 1⟩)] :=
  ⟨rfl, by decide⟩

/-- C8 (amended): the parser selects the first line containing the literal
substring `"dispersion"` (the presence of `"partitions"` is not required),
splits it on commas and strips each token, then splits each token on single
spaces into exactly a numeric value and a key (a token with no space or with
more than one space is a fatal `ValueError`, not a split at the first space),
accumulating the name-to-float mapping; with no line containing
`"dispersion"` the result is the empty mapping. -/
theorem c8_amended :
    (∀ s, (∀ l ∈ pySplit s (Char.ofNat 10),
        strContains l "dispersion" = false) →
      parse_swift_ring_builder s = .ok []) ∧
    (∀ s l rest,
      (pySplit s (Char.ofNat 10)).filter
          (fun l => strContains l "dispersion") = l :: rest →
      parse_swift_ring_builder s =
        summaryFold ((pySplit l (Char.ofNat 44)).map pyStrip) []) ∧
    (parse_swift_ring_builder
        ("1.0 zones, 3.0 replicas, 9.0 devices, 1.0 regions, " ++
          "0.0 dispersion, 0.78 balance, 256.0 partitions") =
      .ok [("zones", ⟨10, 1⟩), ("replicas", ⟨30, 1⟩), ("devices", ⟨90, 1⟩),
        ("regions", ⟨10, 1⟩), ("dispersion", ⟨0, 1⟩), ("balance", ⟨78, 2⟩),
        ("partitions", ⟨2560, 1⟩)]) ∧
    (parse_swift_ring_builder "0.5 dispersion" =
      .ok [("dispersion", ⟨5, 1⟩)]) := by
  refine ⟨?_, ?_, by decide, by decide⟩
  · intro s h
    simp only [parse_swift_ring_builder]
    rw [List.filter_eq_nil_iff.mpr (fun l hl => by simp [h l hl])]
  · intro s l rest h
    simp only [parse_swift_ring_builder]
    rw [h]

/-- C8 (witness): the amended selection rules at concrete inputs — an input
with no `"dispersion"` line parses to the empty mapping, and the first of two
matching lines is the one parsed. -/
theorem c8_witness :
    parse_swift_ring_builder "1.0 zones, 256.0 partitions" = .ok [] ∧
    parse_swift_ring_builder "x\n0.5 dispersion\n0.7 dispersion" =
      summaryFold
        ((pySplit "0.5 dispersion" (Char.ofNat 44)).map pyStrip) [] :=
  ⟨c8_amended.1 "1.0 zones, 256.0 partitions" (by decide),
   c8_amended.2.1 "x\n0.5 dispersion\n0.7 dispersion" "0.5 dispersion"
     ["0.7 dispersion"] (by decide)⟩

/-- C9: the table parser pads each data row with empty-string cells up to the
header length and never truncates: the two round-trip examples hold exactly,
the padding loop is provably `cells ++ replicate (missing) ""` (so no cell is
dropped and a long row stays longer than the header), and every row of every
parse is at least as long as its header. -/
theorem c9_table_padding :
    parse_table "A B\n1 2" = (["A", "B"], [["1", "2"]]) ∧
    parse_table "A B\n1" = (["A", "B"], [["1", ""]]) ∧
    (∀ cells hlen, padRow cells hlen =
      cells ++ List.replicate (hlen - cells.length) "") ∧
    (∀ t row, row ∈ (parse_table t).2 →
      (parse_table t).1.length ≤ row.length) := by
  refine ⟨by decide, by decide, padRow_append, ?_⟩
  intro t row hrow
  unfold parse_table at hrow ⊢
  exact parseTableGo_rows _ [] [] (by simp) (fun _ => rfl) row hrow

/-- C9 (witness): the general no-truncation fact applied to the parse of a
concrete table whose data row is short. -/
theorem c9_witness :
    (parse_table "A B\n1").1.length ≤ ["1", ""].length :=
  c9_table_padding.2.2.2 "A B\n1" ["1", ""] (by decide)

end PytestRpc
